import Mathlib

/-!
Verification of the Vigil triage frontend core against its specification.

The definitions below are a shallow embedding of the TypeScript sources:
`computeClinicalMetrics` and the display helpers in
`frontend/src/app/triage/page.tsx`, the request payload construction in
`frontend/src/lib/api.ts`, the `ShapChart` and `RiskBadge` components, and
(modelled from the spec, since the backend sources are absent) the Critical
Override Guard and the Digital Twin Simulator.  JavaScript numbers are
embedded as rationals, `Math.round` as rounding half toward positive
infinity, and `Math.min`/`Math.max` clamping as `min`/`max`.
-/

namespace Vigil

/-- The patient form record (`PatientInput` in `frontend/src/lib/api.ts`). -/
structure PatientInput where
  name : String
  age : ℚ
  gender : String
  symptoms : List String
  bp_systolic : ℚ
  bp_diastolic : ℚ
  heart_rate : ℚ
  temperature : ℚ
  spo2 : ℚ
  pre_existing_conditions : List String
  insurance_provider : String
  insurance_response_hours : ℚ
  deriving Repr, DecidableEq

/-- JavaScript `Math.round`: round half toward positive infinity. -/
def jround (x : ℚ) : ℤ := ⌊x + 1 / 2⌋

/-- The `clamp` helper of `computeClinicalMetrics` at its default bounds,
applied to already-rounded integer scores: `Math.min(100, Math.max(0, v))`. -/
def iclamp (v : ℤ) : ℤ := min 100 (max 0 v)

/-- Character-list version of `String.startsWith`: the first list is an
initial segment of the second, comparing characters with `==`. -/
def startsWithChars : List Char → List Char → Bool
  | [], _ => true
  | _ :: _, [] => false
  | p :: ps, c :: cs => p == c && startsWithChars ps cs

/-- The pattern occurs as a contiguous subsequence of the character list. -/
def containsChars (p : List Char) : List Char → Bool
  | [] => startsWithChars p []
  | c :: cs => startsWithChars p (c :: cs) || containsChars p cs

/-- Case-insensitive substring test: one literal alternative of a JavaScript
regular expression with the `i` flag matches somewhere inside `s`. -/
def matchesPat (pat : String) (s : String) : Bool :=
  containsChars pat.data s.toLower.data

/-- Some literal alternative of the regular expression matches inside `s`. -/
def matchesAnyPat (pats : List String) (s : String) : Bool :=
  pats.any fun p => matchesPat p s

/-- Helper for the `face.*droop` alternative of the stroke symptom regex:
the list contains `face` followed (at any distance) by `droop`. -/
def faceDroopFrom : List Char → Bool
  | [] => false
  | c :: cs =>
    (startsWithChars "face".data (c :: cs) && containsChars "droop".data (cs.drop 3))
      || faceDroopFrom cs

/-- Case-insensitive match of the `face.*droop` regex alternative. -/
def matchesFaceDroop (s : String) : Bool := faceDroopFrom s.toLower.data

/-! Sepsis risk (`computeClinicalMetrics`, triage/page.tsx lines 56-65).
Each gated contribution of the source is one term. -/

/-- Sepsis: `if (f.temperature >= 100.4 || f.temperature <= 96.8) sepsis += 25`. -/
def sepsisTempTerm (t : ℚ) : ℚ := if t ≥ 100.4 ∨ t ≤ 96.8 then 25 else 0

/-- Sepsis: `if (f.heart_rate > 90) sepsis += 15 + (f.heart_rate - 90) * 0.4`. -/
def sepsisHrTerm (h : ℚ) : ℚ := if h > 90 then 15 + (h - 90) * 0.4 else 0

/-- Sepsis: `if (f.spo2 < 95) sepsis += 20 + (95 - f.spo2) * 2`. -/
def sepsisSpo2Term (s : ℚ) : ℚ := if s < 95 then 20 + (95 - s) * 2 else 0

/-- Sepsis: `if (f.bp_systolic < 100) sepsis += 15 + (100 - f.bp_systolic) * 0.3`. -/
def sepsisBpTerm (b : ℚ) : ℚ := if b < 100 then 15 + (100 - b) * 0.3 else 0

/-- Sepsis: `if (f.age > 65) sepsis += 8`. -/
def sepsisAgeTerm (a : ℚ) : ℚ := if a > 65 then 8 else 0

/-- Literal alternatives of the condition regex `/diabet|immun|liver|kidney/i`. -/
def sepsisCondPats : List String := ["diabet", "immun", "liver", "kidney"]

/-- Literal alternatives of the symptom regex `/fever|chill|confus|lethargy|infect/i`. -/
def sepsisSympPats : List String := ["fever", "chill", "confus", "lethargy", "infect"]

/-- Sepsis: `+= 10` when some pre-existing condition matches the pattern. -/
def sepsisCondTerm (cs : List String) : ℚ :=
  if cs.any (fun c => matchesAnyPat sepsisCondPats c) then 10 else 0

/-- Sepsis: `+= 12` when some symptom matches the pattern. -/
def sepsisSympTerm (ss : List String) : ℚ :=
  if ss.any (fun s => matchesAnyPat sepsisSympPats s) then 12 else 0

/-- The accumulated sepsis sum before rounding and clamping. -/
def sepsisRaw (f : PatientInput) : ℚ :=
  sepsisTempTerm f.temperature + sepsisHrTerm f.heart_rate + sepsisSpo2Term f.spo2 +
    sepsisBpTerm f.bp_systolic + sepsisAgeTerm f.age +
    sepsisCondTerm f.pre_existing_conditions + sepsisSympTerm f.symptoms

/-- `sepsis = clamp(Math.round(sepsis))`. -/
def sepsisScore (f : PatientInput) : ℤ := iclamp (jround (sepsisRaw f))

/-! Shock risk (triage/page.tsx lines 67-76). -/

/-- Shock: `if (bp < 90) shock += 35 + (90 - bp) * 0.6; else if (bp < 100) shock += 15`. -/
def shockBpTerm (b : ℚ) : ℚ :=
  if b < 90 then 35 + (90 - b) * 0.6 else if b < 100 then 15 else 0

/-- Shock: `if (hr > 100) shock += 20 + (hr - 100) * 0.5`. -/
def shockHrTerm (h : ℚ) : ℚ := if h > 100 then 20 + (h - 100) * 0.5 else 0

/-- Shock: `if (spo2 < 92) shock += 25 + (92 - spo2) * 2`. -/
def shockSpo2Term (s : ℚ) : ℚ := if s < 92 then 25 + (92 - s) * 2 else 0

/-- Shock: `if (temperature >= 103) shock += 10`. -/
def shockTempTerm (t : ℚ) : ℚ := if t ≥ 103 then 10 else 0

/-- Literal alternatives of `/faint|dizz|weak|pale|sweat|bleed|chest pain/i`. -/
def shockSympPats : List String :=
  ["faint", "dizz", "weak", "pale", "sweat", "bleed", "chest pain"]

/-- Shock: `+= 15` when some symptom matches the pattern. -/
def shockSympTerm (ss : List String) : ℚ :=
  if ss.any (fun s => matchesAnyPat shockSympPats s) then 15 else 0

/-- Shock: `if (age > 70) shock += 5`. -/
def shockAgeTerm (a : ℚ) : ℚ := if a > 70 then 5 else 0

/-- The accumulated shock sum before rounding and clamping. -/
def shockRaw (f : PatientInput) : ℚ :=
  shockBpTerm f.bp_systolic + shockHrTerm f.heart_rate + shockSpo2Term f.spo2 +
    shockTempTerm f.temperature + shockSympTerm f.symptoms + shockAgeTerm f.age

/-- `shock = clamp(Math.round(shock))`. -/
def shockScore (f : PatientInput) : ℤ := iclamp (jround (shockRaw f))

/-! Stroke risk (triage/page.tsx lines 78-86). -/

/-- Stroke: `if (bp > 140) stroke += 20 + (bp - 140) * 0.5`. -/
def strokeBpTerm (b : ℚ) : ℚ := if b > 140 then 20 + (b - 140) * 0.5 else 0

/-- Stroke: `if (bp > 180) stroke += 15`. -/
def strokeBpHighTerm (b : ℚ) : ℚ := if b > 180 then 15 else 0

/-- Stroke: `if (age > 55) stroke += 10 + (age - 55) * 0.4`. -/
def strokeAgeTerm (a : ℚ) : ℚ := if a > 55 then 10 + (a - 55) * 0.4 else 0

/-- Literal alternatives of `/hypertens|diabet|atrial|heart|cholesterol/i`. -/
def strokeCondPats : List String :=
  ["hypertens", "diabet", "atrial", "heart", "cholesterol"]

/-- Stroke: `+= 15` when some pre-existing condition matches the pattern. -/
def strokeCondTerm (cs : List String) : ℚ :=
  if cs.any (fun c => matchesAnyPat strokeCondPats c) then 15 else 0

/-- One symptom matches `/headache|numb|vision|speech|slur|face.*droop|paralysis/i`. -/
def strokeSympMatch (s : String) : Bool :=
  matchesAnyPat ["headache", "numb", "vision", "speech", "slur", "paralysis"] s
    || matchesFaceDroop s

/-- Stroke: `+= 20` when some symptom matches the pattern. -/
def strokeSympTerm (ss : List String) : ℚ :=
  if ss.any strokeSympMatch then 20 else 0

/-- Stroke: `if (hr > 110) stroke += 8`. -/
def strokeHrTerm (h : ℚ) : ℚ := if h > 110 then 8 else 0

/-- The accumulated stroke sum before rounding and clamping. -/
def strokeRaw (f : PatientInput) : ℚ :=
  strokeBpTerm f.bp_systolic + strokeBpHighTerm f.bp_systolic + strokeAgeTerm f.age +
    strokeCondTerm f.pre_existing_conditions + strokeSympTerm f.symptoms +
    strokeHrTerm f.heart_rate

/-- `stroke = clamp(Math.round(stroke))`. -/
def strokeScore (f : PatientInput) : ℤ := iclamp (jround (strokeRaw f))

/-- The overall deterioration rate (triage/page.tsx line 89):
`clamp(Math.round(sepsis * 0.4 + shock * 0.35 + stroke * 0.25))`. -/
def deteriorationScore (f : PatientInput) : ℤ :=
  iclamp (jround ((sepsisScore f : ℚ) * 0.4 + (shockScore f : ℚ) * 0.35 +
    (strokeScore f : ℚ) * 0.25))

/-! Mortality rate (triage/page.tsx lines 91-105). -/

/-- Mortality: `mortality += Math.max(0, (age - 40) * 0.3)`. -/
def mortalityAgeTerm (a : ℚ) : ℚ := max 0 ((a - 40) * 0.3)

/-- Mortality: `if (spo2 < 90) += 25; else if (spo2 < 94) += 12`. -/
def mortalitySpo2Term (s : ℚ) : ℚ := if s < 90 then 25 else if s < 94 then 12 else 0

/-- Mortality: `if (bp < 80) += 20; else if (bp < 90) += 10`. -/
def mortalityBpLowTerm (b : ℚ) : ℚ := if b < 80 then 20 else if b < 90 then 10 else 0

/-- Mortality: `if (bp > 180) += 12`. -/
def mortalityBpHighTerm (b : ℚ) : ℚ := if b > 180 then 12 else 0

/-- Mortality: `if (hr > 120) += 12; else if (hr < 50) += 15`. -/
def mortalityHrTerm (h : ℚ) : ℚ := if h > 120 then 12 else if h < 50 then 15 else 0

/-- Mortality: `if (temperature >= 104) += 10`. -/
def mortalityTempTerm (t : ℚ) : ℚ := if t ≥ 104 then 10 else 0

/-- Mortality: `if (conditions.length >= 3) += 10; else if (>= 1) += 5`. -/
def mortalityCondTerm (cs : List String) : ℚ :=
  if cs.length ≥ 3 then 10 else if cs.length ≥ 1 then 5 else 0

/-- The accumulated mortality sum before rounding and clamping, including
`(sepsis * 0.15) + (shock * 0.2) + (stroke * 0.1)`. -/
def mortalityRaw (f : PatientInput) : ℚ :=
  mortalityAgeTerm f.age + mortalitySpo2Term f.spo2 + mortalityBpLowTerm f.bp_systolic +
    mortalityBpHighTerm f.bp_systolic + mortalityHrTerm f.heart_rate +
    mortalityTempTerm f.temperature + mortalityCondTerm f.pre_existing_conditions +
    (sepsisScore f : ℚ) * 0.15 + (shockScore f : ℚ) * 0.2 + (strokeScore f : ℚ) * 0.1

/-- `mortality = clamp(Math.round(mortality))`. -/
def mortalityScore (f : PatientInput) : ℤ := iclamp (jround (mortalityRaw f))

/-- `const severity = (sepsis + shock + stroke + mortality) / 4` (line 108). -/
def severity (f : PatientInput) : ℚ :=
  ((sepsisScore f : ℚ) + (shockScore f : ℚ) + (strokeScore f : ℚ) +
    (mortalityScore f : ℚ)) / 4

/-- The branch on severity (triage/page.tsx lines 110-112). -/
def escalationMinRaw (f : PatientInput) : ℤ :=
  if severity f ≥ 60 then max 10 (jround (60 - severity f * 0.6))
  else if severity f ≥ 30 then jround (120 - severity f * 1.5)
  else jround (360 - severity f * 4)

/-- `escalationMin = Math.max(5, Math.min(480, escalationMin))` (line 113). -/
def escalationMin (f : PatientInput) : ℤ := max 5 (min 480 (escalationMinRaw f))

/-! Specification-side restatements, used for the refinement claims that the
source formulas agree with the spec's formulas. -/

/-- The deterioration composite exactly as the spec words it:
`0.40·sepsis + 0.35·shock + 0.25·stroke`, rounded and clamped. -/
def deteriorationSpec (f : PatientInput) : ℤ :=
  iclamp (jround (0.40 * (sepsisScore f : ℚ) + 0.35 * (shockScore f : ℚ) +
    0.25 * (strokeScore f : ℚ)))

/-- The sepsis sub-score exactly as the spec words its gated contributions. -/
def sepsisSpec (f : PatientInput) : ℤ :=
  iclamp (jround (
    (if f.temperature ≥ 100.4 ∨ f.temperature ≤ 96.8 then 25 else 0) +
    (if f.heart_rate > 90 then 15 + 0.4 * (f.heart_rate - 90) else 0) +
    (if f.spo2 < 95 then 20 + 2 * (95 - f.spo2) else 0) +
    (if f.bp_systolic < 100 then 15 + 0.3 * (100 - f.bp_systolic) else 0) +
    (if f.age > 65 then 8 else 0) +
    (if f.pre_existing_conditions.any (fun c => matchesAnyPat sepsisCondPats c) then 10 else 0) +
    (if f.symptoms.any (fun s => matchesAnyPat sepsisSympPats s) then 12 else 0)))

/-! The request payload built by `submitTriage` (`frontend/src/lib/api.ts`). -/

/-- `submitTriage` payload: every field of the form, with
`temperature: Math.round(((data.temperature - 32) * 5) / 9 * 10) / 10`. -/
def submitTriagePayload (p : PatientInput) : PatientInput :=
  { p with temperature := (jround ((p.temperature - 32) * 5 / 9 * 10) : ℚ) / 10 }

/-- Rounding to one decimal place, as the spec-level description of the
temperature conversion ("rounded to one decimal place"). -/
def roundTo1 (x : ℚ) : ℚ := (jround (x * 10) : ℚ) / 10

/-! Risk banding of scores (`riskColor` in `ClinicalMetricsPanel`,
triage/page.tsx lines 137-138, and the deterioration-score colour of the
results panel, lines 940-947). -/

/-- `riskColor` of `ClinicalMetricsPanel`:
`v >= 60 ? "text-red-400" : v >= 30 ? "text-amber-400" : "text-emerald-400"`. -/
def riskColor (v : ℚ) : String :=
  if v ≥ 60 then "text-red-400" else if v ≥ 30 then "text-amber-400"
  else "text-emerald-400"

/-- The results-panel colour of `result.deterioration.deterioration_score`
(triage/page.tsx lines 941-947), transcribed separately from its own source. -/
def resultScoreColor (v : ℚ) : String :=
  if v ≥ 60 then "text-red-400" else if v ≥ 30 then "text-amber-400"
  else "text-emerald-400"

/-! The `ShapChart` component (`frontend/src/app/components/ShapChart.tsx`). -/

/-- One SHAP factor (`ShapFactor` in `frontend/src/lib/api.ts`);
`direction` is the string `"up"` or `"down"`. -/
structure ShapFactor where
  feature : String
  impact : ℚ
  value : ℚ
  direction : String
  deriving Repr, DecidableEq

/-- `const maxImpact = Math.max(...factors.map((f) => f.impact), 0.01)`:
the maximum of all impacts and `0.01`. -/
def shapMaxImpact (factors : List ShapFactor) : ℚ :=
  (factors.map fun f => f.impact).foldr max 0.01

/-- `const widthPct = (factor.impact / maxImpact) * 100`. -/
def shapWidthPct (factor : ShapFactor) (factors : List ShapFactor) : ℚ :=
  factor.impact / shapMaxImpact factors * 100

/-! The `RiskBadge` component (`RiskBadge.tsx`). -/

/-- The per-level styling record of `RiskBadge`. -/
structure BadgeStyle where
  bg : String
  text : String
  ring : String
  dot : String
  glow : String
  deriving Repr, DecidableEq

/-- `config.High` of `RiskBadge`. -/
def highBadge : BadgeStyle :=
  { bg := "bg-gradient-to-r from-red-50 to-rose-50"
    text := "text-red-700"
    ring := "ring-red-200"
    dot := "bg-red-500"
    glow := "animate-glow-pulse" }

/-- `config.Medium` of `RiskBadge`. -/
def mediumBadge : BadgeStyle :=
  { bg := "bg-gradient-to-r from-amber-50 to-orange-50"
    text := "text-amber-700"
    ring := "ring-amber-200"
    dot := "bg-amber-500"
    glow := "" }

/-- `config.Low` of `RiskBadge`. -/
def lowBadge : BadgeStyle :=
  { bg := "bg-gradient-to-r from-emerald-50 to-green-50"
    text := "text-emerald-700"
    ring := "ring-emerald-200"
    dot := "bg-emerald-500"
    glow := "" }

/-- The `config` record of `RiskBadge`, as an association list keyed by level. -/
def badgeConfig : List (String × BadgeStyle) :=
  [("High", highBadge), ("Medium", mediumBadge), ("Low", lowBadge)]

/-- The property names every plain JavaScript object literal inherits from
`Object.prototype` (all of them truthy values when accessed by key). -/
def objectPrototypeKeys : List String :=
  ["constructor", "hasOwnProperty", "isPrototypeOf", "propertyIsEnumerable",
    "toLocaleString", "toString", "valueOf", "__defineGetter__", "__defineSetter__",
    "__lookupGetter__", "__lookupSetter__", "__proto__"]

/-- Result of evaluating `config[level] || config.Low` in JavaScript: either a
`BadgeStyle` (an own data property of `config`, or the `config.Low` fallback),
or a truthy member inherited from `Object.prototype`, which the `||` operator
keeps and which is not a styling record at all. -/
inductive JsBadgeValue where
  | style (c : BadgeStyle)
  | inherited
  deriving Repr, DecidableEq

/-- JavaScript bracket access `config[level]`: own keys first, then the
prototype chain; `Option.none` models `undefined`. -/
def configLookup (level : String) : Option JsBadgeValue :=
  match badgeConfig.find? fun e => e.1 == level with
  | some e => some (JsBadgeValue.style e.2)
  | none => if level ∈ objectPrototypeKeys then some JsBadgeValue.inherited else none

/-- `const c = config[level] || config.Low` of `RiskBadge`: `undefined` is the
only falsy outcome, so only then does the `||` select `config.Low`; a truthy
inherited `Object.prototype` member is kept as-is. -/
def riskBadgeStyle (level : String) : JsBadgeValue :=
  match configLookup level with
  | some v => v
  | none => JsBadgeValue.style lowBadge

/-! The backend triage pipeline pieces needed by the claims.  The backend
sources are not under src (only the frontend is), so these are modelled
from the spec. -/

/-- The three-level risk scale, totally ordered Low < Medium < High. -/
inductive RiskLevel where
  | Low
  | Medium
  | High
  deriving Repr, DecidableEq

/-- Numeric rank realising the order Low < Medium < High. -/
def RiskLevel.rank : RiskLevel → ℕ
  | .Low => 0
  | .Medium => 1
  | .High => 2

/-- A vitals snapshot as consumed by the backend (temperature in Celsius). -/
structure Vitals where
  bp_systolic : ℚ
  bp_diastolic : ℚ
  heart_rate : ℚ
  temperature : ℚ
  spo2 : ℚ
  deriving Repr, DecidableEq

/-- The override decision record of the spec's data model. -/
structure OverrideDecision where
  fired : Bool
  reason : Option String
  deriving Repr, DecidableEq

/-- First-match evaluation over an ordered rule list, reporting exactly the
first matching rule's reason. -/
def firstMatch (rules : List ((Vitals → Bool) × String)) (v : Vitals) : OverrideDecision :=
  match rules with
  | [] => ⟨false, none⟩
  | r :: rest => if r.1 v then ⟨true, some r.2⟩ else firstMatch rest v

/-- Modelled from the spec: the ordered condition list of the Critical
Override Guard (spec 4.2; the backend source is not under src).  Fires, in
priority order, on SpO2 at or below 85, systolic BP at or above 200, heart
rate at or above 150, temperature at or above 40.5 Celsius. -/
def overrideRules : List ((Vitals → Bool) × String) :=
  [ (fun v => decide (v.spo2 ≤ 85), "SpO2 <= 85%"),
    (fun v => decide (v.bp_systolic ≥ 200), "Systolic BP >= 200"),
    (fun v => decide (v.heart_rate ≥ 150), "Heart rate >= 150"),
    (fun v => decide (v.temperature ≥ 40.5), "Temperature >= 40.5 C") ]

/-- Modelled from the spec: the Critical Override Guard evaluates its four
conditions in the fixed order and reports the first matching reason. -/
def criticalOverrideGuard (v : Vitals) : OverrideDecision :=
  firstMatch overrideRules v

/-- The classifier collaborator's output (a black box per the spec). -/
structure ClassifierOutput where
  risk_level : RiskLevel
  confidence : ℚ
  shap_factors : List ShapFactor
  deriving Repr

/-- The risk portion of a `TriageResult`. -/
structure RiskVerdict where
  risk_level : RiskLevel
  confidence : ℚ
  shap_factors : List ShapFactor
  override : Bool
  override_reason : Option String
  deriving Repr

/-- Modelled from the spec: the Orchestrator's override path (spec 4.2 and
4.7; backend source not under src).  When the guard fires the classifier is
skipped and RiskLevel = High with confidence 1.0 and empty SHAP factors;
otherwise the classifier output is passed through. -/
def orchestrateRisk (v : Vitals) (cls : ClassifierOutput) : RiskVerdict :=
  let od := criticalOverrideGuard v
  if od.fired then
    ⟨RiskLevel.High, 1, [], true, od.reason⟩
  else
    ⟨cls.risk_level, cls.confidence, cls.shap_factors, false, none⟩

/-- One step of the digital twin timeline (`TimelineStep` of the spec's
data model; `time_minutes`, `vitals`, `risk_score`, `risk_level` as in the
frontend's `TriageResult.digital_twin.timeline`). -/
structure TimelineStep where
  time_minutes : ℕ
  vitals : Vitals
  risk_score : ℚ
  risk_level : RiskLevel
  deriving Repr

/-- Modelled from the spec: the Digital Twin Simulator (spec 4.4; backend
source not under src).  Fixed horizon of 180 minutes at 15-minute steps;
starting at minute 0 with exactly the input vitals; each subsequent step
advances the vitals by a drift function, and the live scoring logic is
reapplied at each step to derive that step's risk score and level.  The
drift and scoring functions are parameters, as the spec constrains only
the timeline structure. -/
def simulateTwin (drift : Vitals → Vitals) (riskScore : Vitals → ℚ)
    (classify : Vitals → RiskLevel) (v0 : Vitals) : List TimelineStep :=
  (List.range 13).map fun i =>
    { time_minutes := 15 * i
      vitals := drift^[i] v0
      risk_score := riskScore (drift^[i] v0)
      risk_level := classify (drift^[i] v0) }

/-- Modelled from the spec: `escalation_point_min` is the time offset of the
first timeline step whose risk level is strictly higher than the starting
risk level, and is absent when risk never increases. -/
def escalationPointMin (startRisk : RiskLevel) : List TimelineStep → Option ℕ
  | [] => none
  | s :: rest =>
    if startRisk.rank < s.risk_level.rank then some s.time_minutes
    else escalationPointMin startRisk rest

/-- The default form state `DEFAULT_FORM` of the triage page. -/
def defaultForm : PatientInput :=
  { name := ""
    age := 45
    gender := "Male"
    symptoms := []
    bp_systolic := 120
    bp_diastolic := 80
    heart_rate := 75
    temperature := 98.6
    spo2 := 97
    pre_existing_conditions := []
    insurance_provider := "United Health"
    insurance_response_hours := 2 }

/-! Basic facts about the rounding and clamping helpers. -/

theorem jround_mono {a b : ℚ} (h : a ≤ b) : jround a ≤ jround b :=
  Int.floor_le_floor (by linarith)

theorem iclamp_mono {a b : ℤ} (h : a ≤ b) : iclamp a ≤ iclamp b :=
  min_le_min le_rfl (max_le_max le_rfl h)

theorem iclamp_nonneg (v : ℤ) : 0 ≤ iclamp v :=
  le_min (by norm_num) (le_max_left 0 v)

theorem iclamp_le_hundred (v : ℤ) : iclamp v ≤ 100 := min_le_left _ _

theorem score_mono {a b : ℚ} (h : a ≤ b) : iclamp (jround a) ≤ iclamp (jround b) :=
  iclamp_mono (jround_mono h)

/-! Monotonicity of the individual gated contributions, in the direction
that moves the signal further from its normal range. -/

theorem sepsisTempTerm_mono_above {a b : ℚ} (ha : 96.8 < a) (hab : a ≤ b) :
    sepsisTempTerm a ≤ sepsisTempTerm b := by
  unfold sepsisTempTerm
  split_ifs with h1 h2
  · exact le_rfl
  · exfalso
    push_neg at h2
    rcases h1 with h | h
    · linarith [h2.1]
    · linarith
  · norm_num
  · exact le_rfl

theorem sepsisTempTerm_mono_below {a b : ℚ} (hb : b < 100.4) (hab : a ≤ b) :
    sepsisTempTerm b ≤ sepsisTempTerm a := by
  unfold sepsisTempTerm
  split_ifs with h1 h2
  · exact le_rfl
  · exfalso
    push_neg at h2
    rcases h1 with h | h
    · linarith
    · linarith [h2.2]
  · norm_num
  · exact le_rfl

theorem sepsisHrTerm_mono {a b : ℚ} (h : a ≤ b) : sepsisHrTerm a ≤ sepsisHrTerm b := by
  unfold sepsisHrTerm
  split_ifs <;> linarith

theorem sepsisSpo2Term_anti {a b : ℚ} (h : a ≤ b) :
    sepsisSpo2Term b ≤ sepsisSpo2Term a := by
  unfold sepsisSpo2Term
  split_ifs <;> linarith

theorem sepsisBpTerm_anti {a b : ℚ} (h : a ≤ b) : sepsisBpTerm b ≤ sepsisBpTerm a := by
  unfold sepsisBpTerm
  split_ifs <;> linarith

theorem sepsisAgeTerm_mono {a b : ℚ} (h : a ≤ b) : sepsisAgeTerm a ≤ sepsisAgeTerm b := by
  unfold sepsisAgeTerm
  split_ifs <;> linarith

theorem shockBpTerm_anti {a b : ℚ} (h : a ≤ b) : shockBpTerm b ≤ shockBpTerm a := by
  unfold shockBpTerm
  split_ifs <;> linarith

theorem shockHrTerm_mono {a b : ℚ} (h : a ≤ b) : shockHrTerm a ≤ shockHrTerm b := by
  unfold shockHrTerm
  split_ifs <;> linarith

theorem shockSpo2Term_anti {a b : ℚ} (h : a ≤ b) : shockSpo2Term b ≤ shockSpo2Term a := by
  unfold shockSpo2Term
  split_ifs <;> linarith

theorem shockTempTerm_mono {a b : ℚ} (h : a ≤ b) : shockTempTerm a ≤ shockTempTerm b := by
  unfold shockTempTerm
  split_ifs <;> linarith

theorem shockAgeTerm_mono {a b : ℚ} (h : a ≤ b) : shockAgeTerm a ≤ shockAgeTerm b := by
  unfold shockAgeTerm
  split_ifs <;> linarith

theorem strokeBpTerm_mono {a b : ℚ} (h : a ≤ b) : strokeBpTerm a ≤ strokeBpTerm b := by
  unfold strokeBpTerm
  split_ifs <;> linarith

theorem strokeBpHighTerm_mono {a b : ℚ} (h : a ≤ b) :
    strokeBpHighTerm a ≤ strokeBpHighTerm b := by
  unfold strokeBpHighTerm
  split_ifs <;> linarith

theorem strokeAgeTerm_mono {a b : ℚ} (h : a ≤ b) : strokeAgeTerm a ≤ strokeAgeTerm b := by
  unfold strokeAgeTerm
  split_ifs <;> linarith

theorem strokeHrTerm_mono {a b : ℚ} (h : a ≤ b) : strokeHrTerm a ≤ strokeHrTerm b := by
  unfold strokeHrTerm
  split_ifs <;> linarith

/-- Prepending an element to the scanned list can only enable, never
disable, a nonnegative gated contribution over `List.any`. -/
theorem gatedAnyTerm_cons_le (p : String → Bool) (k : ℚ) (hk : 0 ≤ k) (c : String)
    (cs : List String) :
    (if cs.any p then k else 0) ≤ (if (c :: cs).any p then k else 0) := by
  by_cases h : cs.any p = true
  · have h2 : (c :: cs).any p = true := by simp [List.any_cons, h]
    rw [if_pos h, if_pos h2]
  · rw [if_neg h]
    split_ifs with h2
    · exact hk
    · exact le_rfl

/-! First-match evaluation: the guard reports exactly the first matching
rule, in declaration order. -/

theorem firstMatch_eq_of_first (rules : List ((Vitals → Bool) × String)) (v : Vitals)
    (i : ℕ) (hi : i < rules.length)
    (hmatch : (rules.get ⟨i, hi⟩).1 v = true)
    (hprev : ∀ j (hj : j < i), (rules.get ⟨j, hj.trans hi⟩).1 v = false) :
    firstMatch rules v = ⟨true, some (rules.get ⟨i, hi⟩).2⟩ := by
  induction rules generalizing i with
  | nil => exact absurd hi (by simp)
  | cons r rest ih =>
    cases i with
    | zero =>
      simp only [List.get] at hmatch ⊢
      unfold firstMatch
      rw [if_pos hmatch]
    | succ i =>
      have h0 : r.1 v = false := by
        have := hprev 0 (Nat.succ_pos i)
        simpa using this
      simp only [List.get] at hmatch ⊢
      unfold firstMatch
      rw [if_neg (by simp [h0])]
      exact ih i (Nat.lt_of_succ_lt_succ hi) hmatch
        (fun j hj => by simpa using hprev (j + 1) (Nat.succ_lt_succ hj))

/-! Characterization of the escalation point. -/

theorem escalationPointMin_eq_none_iff (r : RiskLevel) (tl : List TimelineStep) :
    escalationPointMin r tl = none ↔ ∀ s ∈ tl, s.risk_level.rank ≤ r.rank := by
  induction tl with
  | nil => simp [escalationPointMin]
  | cons s rest ih =>
    by_cases h : r.rank < s.risk_level.rank
    · simp only [escalationPointMin, if_pos h]
      constructor
      · intro hc
        exact Option.noConfusion hc
      · intro hall
        exact absurd (hall s (List.mem_cons_self s rest)) (not_le.mpr h)
    · simp only [escalationPointMin, if_neg h]
      rw [ih]
      constructor
      · intro hall t ht
        rcases List.mem_cons.mp ht with rfl | ht
        · exact not_lt.mp h
        · exact hall t ht
      · intro hall t ht
        exact hall t (List.mem_cons_of_mem s ht)

theorem escalationPointMin_eq_some_iff (r : RiskLevel) (tl : List TimelineStep) (m : ℕ) :
    escalationPointMin r tl = some m ↔
      ∃ i, ∃ hi : i < tl.length,
        r.rank < (tl.get ⟨i, hi⟩).risk_level.rank ∧
        (tl.get ⟨i, hi⟩).time_minutes = m ∧
        ∀ j (hj : j < i), (tl.get ⟨j, hj.trans hi⟩).risk_level.rank ≤ r.rank := by
  induction tl with
  | nil =>
    simp only [escalationPointMin]
    constructor
    · intro hc
      exact Option.noConfusion hc
    · rintro ⟨i, hi, -⟩
      exact absurd hi (by simp)
  | cons s rest ih =>
    by_cases h : r.rank < s.risk_level.rank
    · simp only [escalationPointMin, if_pos h, Option.some_inj]
      constructor
      · intro hm
        exact ⟨0, Nat.succ_pos _, h, hm, fun j hj => absurd hj (Nat.not_lt_zero j)⟩
      · rintro ⟨i, hi, hrank, htime, hprev⟩
        cases i with
        | zero => exact htime
        | succ i =>
          have h0 := hprev 0 (Nat.succ_pos i)
          simp only [List.get] at h0
          exact absurd h (not_lt.mpr h0)
    · simp only [escalationPointMin, if_neg h]
      rw [ih]
      constructor
      · rintro ⟨i, hi, hrank, htime, hprev⟩
        refine ⟨i + 1, Nat.succ_lt_succ hi, hrank, htime, ?_⟩
        intro j hj
        cases j with
        | zero => exact not_lt.mp h
        | succ j =>
          have := hprev j (Nat.lt_of_succ_lt_succ hj)
          simpa using this
      · rintro ⟨i, hi, hrank, htime, hprev⟩
        cases i with
        | zero =>
          exfalso
          simp only [List.get] at hrank
          exact absurd hrank h
        | succ i =>
          refine ⟨i, Nat.lt_of_succ_lt_succ hi, hrank, htime, ?_⟩
          intro j hj
          have := hprev (j + 1) (Nat.succ_lt_succ hj)
          simpa using this

/-! Monotonicity of the three sub-scores in each contributing input (each
moved further from its normal range, everything else held fixed). -/

theorem sepsisScore_mono_hr (f : PatientInput) {a b : ℚ} (h : a ≤ b) :
    sepsisScore { f with heart_rate := a } ≤ sepsisScore { f with heart_rate := b } := by
  unfold sepsisScore
  apply score_mono
  unfold sepsisRaw
  dsimp only
  linarith [sepsisHrTerm_mono h]

theorem sepsisScore_anti_spo2 (f : PatientInput) {a b : ℚ} (h : a ≤ b) :
    sepsisScore { f with spo2 := b } ≤ sepsisScore { f with spo2 := a } := by
  unfold sepsisScore
  apply score_mono
  unfold sepsisRaw
  dsimp only
  linarith [sepsisSpo2Term_anti h]

theorem sepsisScore_anti_bp (f : PatientInput) {a b : ℚ} (h : a ≤ b) :
    sepsisScore { f with bp_systolic := b } ≤ sepsisScore { f with bp_systolic := a } := by
  unfold sepsisScore
  apply score_mono
  unfold sepsisRaw
  dsimp only
  linarith [sepsisBpTerm_anti h]

theorem sepsisScore_mono_temp_above (f : PatientInput) {a b : ℚ} (ha : 96.8 < a)
    (h : a ≤ b) :
    sepsisScore { f with temperature := a } ≤ sepsisScore { f with temperature := b } := by
  unfold sepsisScore
  apply score_mono
  unfold sepsisRaw
  dsimp only
  linarith [sepsisTempTerm_mono_above ha h]

theorem sepsisScore_mono_temp_below (f : PatientInput) {a b : ℚ} (hb : b < 100.4)
    (h : a ≤ b) :
    sepsisScore { f with temperature := b } ≤ sepsisScore { f with temperature := a } := by
  unfold sepsisScore
  apply score_mono
  unfold sepsisRaw
  dsimp only
  linarith [sepsisTempTerm_mono_below hb h]

theorem sepsisScore_mono_age (f : PatientInput) {a b : ℚ} (h : a ≤ b) :
    sepsisScore { f with age := a } ≤ sepsisScore { f with age := b } := by
  unfold sepsisScore
  apply score_mono
  unfold sepsisRaw
  dsimp only
  linarith [sepsisAgeTerm_mono h]

theorem sepsisScore_cons_cond (f : PatientInput) (c : String) :
    sepsisScore f ≤
      sepsisScore { f with pre_existing_conditions := c :: f.pre_existing_conditions } := by
  unfold sepsisScore
  apply score_mono
  unfold sepsisRaw sepsisCondTerm
  dsimp only
  linarith [gatedAnyTerm_cons_le (fun c => matchesAnyPat sepsisCondPats c) 10
    (by norm_num) c f.pre_existing_conditions]

theorem sepsisScore_cons_symptom (f : PatientInput) (s : String) :
    sepsisScore f ≤ sepsisScore { f with symptoms := s :: f.symptoms } := by
  unfold sepsisScore
  apply score_mono
  unfold sepsisRaw sepsisSympTerm
  dsimp only
  linarith [gatedAnyTerm_cons_le (fun s => matchesAnyPat sepsisSympPats s) 12
    (by norm_num) s f.symptoms]

theorem shockScore_anti_bp (f : PatientInput) {a b : ℚ} (h : a ≤ b) :
    shockScore { f with bp_systolic := b } ≤ shockScore { f with bp_systolic := a } := by
  unfold shockScore
  apply score_mono
  unfold shockRaw
  dsimp only
  linarith [shockBpTerm_anti h]

theorem shockScore_mono_hr (f : PatientInput) {a b : ℚ} (h : a ≤ b) :
    shockScore { f with heart_rate := a } ≤ shockScore { f with heart_rate := b } := by
  unfold shockScore
  apply score_mono
  unfold shockRaw
  dsimp only
  linarith [shockHrTerm_mono h]

theorem shockScore_anti_spo2 (f : PatientInput) {a b : ℚ} (h : a ≤ b) :
    shockScore { f with spo2 := b } ≤ shockScore { f with spo2 := a } := by
  unfold shockScore
  apply score_mono
  unfold shockRaw
  dsimp only
  linarith [shockSpo2Term_anti h]

theorem shockScore_mono_temp (f : PatientInput) {a b : ℚ} (h : a ≤ b) :
    shockScore { f with temperature := a } ≤ shockScore { f with temperature := b } := by
  unfold shockScore
  apply score_mono
  unfold shockRaw
  dsimp only
  linarith [shockTempTerm_mono h]

theorem shockScore_mono_age (f : PatientInput) {a b : ℚ} (h : a ≤ b) :
    shockScore { f with age := a } ≤ shockScore { f with age := b } := by
  unfold shockScore
  apply score_mono
  unfold shockRaw
  dsimp only
  linarith [shockAgeTerm_mono h]

theorem shockScore_cons_symptom (f : PatientInput) (s : String) :
    shockScore f ≤ shockScore { f with symptoms := s :: f.symptoms } := by
  unfold shockScore
  apply score_mono
  unfold shockRaw shockSympTerm
  dsimp only
  linarith [gatedAnyTerm_cons_le (fun s => matchesAnyPat shockSympPats s) 15
    (by norm_num) s f.symptoms]

theorem strokeScore_mono_bp (f : PatientInput) {a b : ℚ} (h : a ≤ b) :
    strokeScore { f with bp_systolic := a } ≤ strokeScore { f with bp_systolic := b } := by
  unfold strokeScore
  apply score_mono
  unfold strokeRaw
  dsimp only
  linarith [strokeBpTerm_mono h, strokeBpHighTerm_mono h]

theorem strokeScore_mono_age (f : PatientInput) {a b : ℚ} (h : a ≤ b) :
    strokeScore { f with age := a } ≤ strokeScore { f with age := b } := by
  unfold strokeScore
  apply score_mono
  unfold strokeRaw
  dsimp only
  linarith [strokeAgeTerm_mono h]

theorem strokeScore_mono_hr (f : PatientInput) {a b : ℚ} (h : a ≤ b) :
    strokeScore { f with heart_rate := a } ≤ strokeScore { f with heart_rate := b } := by
  unfold strokeScore
  apply score_mono
  unfold strokeRaw
  dsimp only
  linarith [strokeHrTerm_mono h]

theorem strokeScore_cons_cond (f : PatientInput) (c : String) :
    strokeScore f ≤
      strokeScore { f with pre_existing_conditions := c :: f.pre_existing_conditions } := by
  unfold strokeScore
  apply score_mono
  unfold strokeRaw strokeCondTerm
  dsimp only
  linarith [gatedAnyTerm_cons_le (fun c => matchesAnyPat strokeCondPats c) 15
    (by norm_num) c f.pre_existing_conditions]

theorem strokeScore_cons_symptom (f : PatientInput) (s : String) :
    strokeScore f ≤ strokeScore { f with symptoms := s :: f.symptoms } := by
  unfold strokeScore
  apply score_mono
  unfold strokeRaw strokeSympTerm
  dsimp only
  linarith [gatedAnyTerm_cons_le strokeSympMatch 20 (by norm_num) s f.symptoms]

/-! Claim theorems. -/

/-- C2: for every patient input, the deterioration value equals the spec's
weighted composite `0.40·sepsis + 0.35·shock + 0.25·stroke` of the three
sub-scores (each sub-score itself already clamped to [0,100]), rounded to an
integer and clamped to [0,100]. -/
theorem deteriorationScore_eq_weighted_composite (f : PatientInput) :
    deteriorationScore f = deteriorationSpec f ∧
    0 ≤ sepsisScore f ∧ sepsisScore f ≤ 100 ∧
    0 ≤ shockScore f ∧ shockScore f ≤ 100 ∧
    0 ≤ strokeScore f ∧ strokeScore f ≤ 100 := by
  refine ⟨?_, iclamp_nonneg _, iclamp_le_hundred _, iclamp_nonneg _, iclamp_le_hundred _,
    iclamp_nonneg _, iclamp_le_hundred _⟩
  unfold deteriorationScore deteriorationSpec
  congr 2
  ring

/-- Witness for C2 at the default form. -/
theorem deteriorationScore_eq_weighted_composite_witness :
    deteriorationScore defaultForm = deteriorationSpec defaultForm :=
  (deteriorationScore_eq_weighted_composite defaultForm).1

/-- C3: for every patient input, the sepsis sub-score equals the sum of
exactly the spec's gated contributions, rounded and clamped to [0,100]. -/
theorem sepsisScore_eq_spec_sum (f : PatientInput) : sepsisScore f = sepsisSpec f := by
  unfold sepsisScore sepsisSpec sepsisRaw sepsisTempTerm sepsisHrTerm sepsisSpo2Term
    sepsisBpTerm sepsisAgeTerm sepsisCondTerm sepsisSympTerm
  congr 2
  split_ifs <;> ring

/-- Witness for C3 at the default form. -/
theorem sepsisScore_eq_spec_sum_witness : sepsisScore defaultForm = sepsisSpec defaultForm :=
  sepsisScore_eq_spec_sum defaultForm

/-- C6: the payload posted by `submitTriage` is identical to its argument in
every field except temperature, which is the Fahrenheit-to-Celsius conversion
`(temperature - 32) * 5 / 9` rounded to one decimal place. -/
theorem submitTriagePayload_converts_temperature_only (p : PatientInput) :
    (submitTriagePayload p).name = p.name ∧
    (submitTriagePayload p).age = p.age ∧
    (submitTriagePayload p).gender = p.gender ∧
    (submitTriagePayload p).symptoms = p.symptoms ∧
    (submitTriagePayload p).bp_systolic = p.bp_systolic ∧
    (submitTriagePayload p).bp_diastolic = p.bp_diastolic ∧
    (submitTriagePayload p).heart_rate = p.heart_rate ∧
    (submitTriagePayload p).spo2 = p.spo2 ∧
    (submitTriagePayload p).pre_existing_conditions = p.pre_existing_conditions ∧
    (submitTriagePayload p).insurance_provider = p.insurance_provider ∧
    (submitTriagePayload p).insurance_response_hours = p.insurance_response_hours ∧
    (submitTriagePayload p).temperature = roundTo1 ((p.temperature - 32) * 5 / 9) :=
  ⟨rfl, rfl, rfl, rfl, rfl, rfl, rfl, rfl, rfl, rfl, rfl, rfl⟩

/-- Witness for C6 at the default form (98.6 F converts to 37.0 C). -/
theorem submitTriagePayload_witness :
    (submitTriagePayload defaultForm).temperature =
      roundTo1 ((defaultForm.temperature - 32) * 5 / 9) :=
  (submitTriagePayload_converts_temperature_only defaultForm).2.2.2.2.2.2.2.2.2.2.2

/-- C7: for every score value in [0,100], the live risk display is red
(critical) iff the value is at least 60 and amber (warning) iff it is at
least 30 and below 60, and the results panel applies the same banding to the
returned deterioration score. -/
theorem riskColor_bands (v : ℚ) (_h0 : 0 ≤ v) (_h100 : v ≤ 100) :
    (riskColor v = "text-red-400" ↔ 60 ≤ v) ∧
    (riskColor v = "text-amber-400" ↔ 30 ≤ v ∧ v < 60) ∧
    resultScoreColor v = riskColor v := by
  unfold riskColor resultScoreColor
  refine ⟨?_, ?_, rfl⟩
  · split_ifs with h1 h2
    · exact iff_of_true rfl h1
    · exact iff_of_false (by decide) h1
    · exact iff_of_false (by decide) h1
  · split_ifs with h1 h2
    · exact iff_of_false (by decide) fun hc => absurd h1 (not_le.mpr hc.2)
    · exact iff_of_true rfl ⟨h2, not_le.mp h1⟩
    · exact iff_of_false (by decide) fun hc => h2 hc.1

/-- Witness for C7 at the value 45 (amber band). -/
theorem riskColor_bands_witness :
    (riskColor 45 = "text-red-400" ↔ 60 ≤ (45 : ℚ)) ∧
    (riskColor 45 = "text-amber-400" ↔ 30 ≤ (45 : ℚ) ∧ (45 : ℚ) < 60) ∧
    resultScoreColor 45 = riskColor 45 :=
  riskColor_bands 45 (by norm_num) (by norm_num)

/-- C8: for every patient input, the escalation time lies within [5, 480]
minutes, and in the highest-severity branch (severity at least 60) it is
additionally never below 10 minutes. -/
theorem escalationMin_bounds (f : PatientInput) :
    5 ≤ escalationMin f ∧ escalationMin f ≤ 480 ∧
      (60 ≤ severity f → 10 ≤ escalationMin f) := by
  unfold escalationMin
  refine ⟨le_max_left _ _, max_le (by norm_num) (min_le_left _ _), fun h => ?_⟩
  have hraw : 10 ≤ escalationMinRaw f := by
    unfold escalationMinRaw
    rw [if_pos h]
    exact le_max_left _ _
  have hmin : (10 : ℤ) ≤ min 480 (escalationMinRaw f) := le_min (by norm_num) hraw
  exact le_trans hmin (le_max_right _ _)

/-- Witness for C8 at the default form. -/
theorem escalationMin_bounds_witness :
    5 ≤ escalationMin defaultForm ∧ escalationMin defaultForm ≤ 480 :=
  ⟨(escalationMin_bounds defaultForm).1, (escalationMin_bounds defaultForm).2.1⟩

/-- C9: for every factor list, including the empty list and all-zero impact
lists, the `ShapChart` bar-width denominator is at least 0.01, hence nonzero,
so the per-factor width division is never a division by zero. -/
theorem shapMaxImpact_positive (factors : List ShapFactor) :
    1 / 100 ≤ shapMaxImpact factors ∧ shapMaxImpact factors ≠ 0 := by
  have h : (1 / 100 : ℚ) ≤ shapMaxImpact factors := by
    unfold shapMaxImpact
    induction factors with
    | nil => norm_num
    | cons a l ih =>
      simp only [List.map_cons, List.foldr_cons]
      exact le_trans ih (le_max_right _ _)
  refine ⟨h, fun hc => ?_⟩
  rw [hc] at h
  norm_num at h

/-- Witness for C9 at the empty factor list. -/
theorem shapMaxImpact_positive_witness :
    1 / 100 ≤ shapMaxImpact [] ∧ shapMaxImpact [] ≠ 0 :=
  shapMaxImpact_positive []

/-- C10 counterexample: the level string "toString" is none of High, Medium,
Low, yet `config["toString"]` is a truthy member inherited from
`Object.prototype`, so the component keeps it and does not fall back to the
Low-risk configuration. -/
theorem riskBadgeStyle_prototype_counterexample :
    "toString" ≠ "High" ∧ "toString" ≠ "Medium" ∧ "toString" ≠ "Low" ∧
    riskBadgeStyle "toString" ≠ JsBadgeValue.style lowBadge := by
  refine ⟨by decide, by decide, by decide, ?_⟩
  decide

/-- C10 (amended): `RiskBadge` selects each known level's own configuration;
for every level string other than High, Medium and Low that is not a property
name inherited from `Object.prototype`, it falls back to the Low-risk
configuration; for an inherited property name, `config[level]` is a truthy
inherited member and the component does not fall back. -/
theorem riskBadgeStyle_fallback_amended :
    riskBadgeStyle "High" = JsBadgeValue.style highBadge ∧
    riskBadgeStyle "Medium" = JsBadgeValue.style mediumBadge ∧
    riskBadgeStyle "Low" = JsBadgeValue.style lowBadge ∧
    (∀ level : String, level ≠ "High" → level ≠ "Medium" → level ≠ "Low" →
      level ∉ objectPrototypeKeys → riskBadgeStyle level = JsBadgeValue.style lowBadge) ∧
    (∀ level : String, level ≠ "High" → level ≠ "Medium" → level ≠ "Low" →
      level ∈ objectPrototypeKeys → riskBadgeStyle level = JsBadgeValue.inherited) := by
  refine ⟨rfl, rfl, rfl, ?_, ?_⟩
  · intro level h1 h2 h3 h4
    have e1 : ("High" == level) = false := beq_eq_false_iff_ne.mpr (Ne.symm h1)
    have e2 : ("Medium" == level) = false := beq_eq_false_iff_ne.mpr (Ne.symm h2)
    have e3 : ("Low" == level) = false := beq_eq_false_iff_ne.mpr (Ne.symm h3)
    simp [riskBadgeStyle, configLookup, badgeConfig, List.find?, e1, e2, e3, h4]
  · intro level h1 h2 h3 h4
    have e1 : ("High" == level) = false := beq_eq_false_iff_ne.mpr (Ne.symm h1)
    have e2 : ("Medium" == level) = false := beq_eq_false_iff_ne.mpr (Ne.symm h2)
    have e3 : ("Low" == level) = false := beq_eq_false_iff_ne.mpr (Ne.symm h3)
    simp [riskBadgeStyle, configLookup, badgeConfig, List.find?, e1, e2, e3, h4]

/-- Witness for the amended C10 at the unknown level string "Critical" (a
fallback case) and the inherited property name "valueOf" (a non-fallback
case). -/
theorem riskBadgeStyle_fallback_amended_witness :
    riskBadgeStyle "Critical" = JsBadgeValue.style lowBadge ∧
    riskBadgeStyle "valueOf" = JsBadgeValue.inherited :=
  ⟨riskBadgeStyle_fallback_amended.2.2.2.1 "Critical" (by decide) (by decide) (by decide)
      (by decide),
    riskBadgeStyle_fallback_amended.2.2.2.2 "valueOf" (by decide) (by decide) (by decide)
      (by decide)⟩

/-- C4: each of the three sub-scores always lies within [0,100], and each is
monotonically non-decreasing as any single contributing input moves further
from its normal range while all other inputs are held fixed (rising heart
rate, falling SpO2, falling systolic BP for sepsis and shock, rising systolic
BP for stroke, temperature moving away from the normal band, rising age, and
adding a symptom or pre-existing condition). -/
theorem subscores_bounded_and_monotone :
    (∀ f : PatientInput,
      0 ≤ sepsisScore f ∧ sepsisScore f ≤ 100 ∧
      0 ≤ shockScore f ∧ shockScore f ≤ 100 ∧
      0 ≤ strokeScore f ∧ strokeScore f ≤ 100) ∧
    (∀ (f : PatientInput) (a b : ℚ), a ≤ b →
      sepsisScore { f with heart_rate := a } ≤ sepsisScore { f with heart_rate := b }) ∧
    (∀ (f : PatientInput) (a b : ℚ), a ≤ b →
      sepsisScore { f with spo2 := b } ≤ sepsisScore { f with spo2 := a }) ∧
    (∀ (f : PatientInput) (a b : ℚ), a ≤ b →
      sepsisScore { f with bp_systolic := b } ≤ sepsisScore { f with bp_systolic := a }) ∧
    (∀ (f : PatientInput) (a b : ℚ), 96.8 < a → a ≤ b →
      sepsisScore { f with temperature := a } ≤ sepsisScore { f with temperature := b }) ∧
    (∀ (f : PatientInput) (a b : ℚ), b < 100.4 → a ≤ b →
      sepsisScore { f with temperature := b } ≤ sepsisScore { f with temperature := a }) ∧
    (∀ (f : PatientInput) (a b : ℚ), a ≤ b →
      sepsisScore { f with age := a } ≤ sepsisScore { f with age := b }) ∧
    (∀ (f : PatientInput) (c : String),
      sepsisScore f ≤
        sepsisScore { f with pre_existing_conditions := c :: f.pre_existing_conditions }) ∧
    (∀ (f : PatientInput) (s : String),
      sepsisScore f ≤ sepsisScore { f with symptoms := s :: f.symptoms }) ∧
    (∀ (f : PatientInput) (a b : ℚ), a ≤ b →
      shockScore { f with bp_systolic := b } ≤ shockScore { f with bp_systolic := a }) ∧
    (∀ (f : PatientInput) (a b : ℚ), a ≤ b →
      shockScore { f with heart_rate := a } ≤ shockScore { f with heart_rate := b }) ∧
    (∀ (f : PatientInput) (a b : ℚ), a ≤ b →
      shockScore { f with spo2 := b } ≤ shockScore { f with spo2 := a }) ∧
    (∀ (f : PatientInput) (a b : ℚ), a ≤ b →
      shockScore { f with temperature := a } ≤ shockScore { f with temperature := b }) ∧
    (∀ (f : PatientInput) (a b : ℚ), a ≤ b →
      shockScore { f with age := a } ≤ shockScore { f with age := b }) ∧
    (∀ (f : PatientInput) (s : String),
      shockScore f ≤ shockScore { f with symptoms := s :: f.symptoms }) ∧
    (∀ (f : PatientInput) (a b : ℚ), a ≤ b →
      strokeScore { f with bp_systolic := a } ≤ strokeScore { f with bp_systolic := b }) ∧
    (∀ (f : PatientInput) (a b : ℚ), a ≤ b →
      strokeScore { f with age := a } ≤ strokeScore { f with age := b }) ∧
    (∀ (f : PatientInput) (a b : ℚ), a ≤ b →
      strokeScore { f with heart_rate := a } ≤ strokeScore { f with heart_rate := b }) ∧
    (∀ (f : PatientInput) (c : String),
      strokeScore f ≤
        strokeScore { f with pre_existing_conditions := c :: f.pre_existing_conditions }) ∧
    (∀ (f : PatientInput) (s : String),
      strokeScore f ≤ strokeScore { f with symptoms := s :: f.symptoms }) :=
  ⟨fun _ => ⟨iclamp_nonneg _, iclamp_le_hundred _, iclamp_nonneg _, iclamp_le_hundred _,
      iclamp_nonneg _, iclamp_le_hundred _⟩,
    fun f _ _ h => sepsisScore_mono_hr f h,
    fun f _ _ h => sepsisScore_anti_spo2 f h,
    fun f _ _ h => sepsisScore_anti_bp f h,
    fun f _ _ ha h => sepsisScore_mono_temp_above f ha h,
    fun f _ _ hb h => sepsisScore_mono_temp_below f hb h,
    fun f _ _ h => sepsisScore_mono_age f h,
    fun f c => sepsisScore_cons_cond f c,
    fun f s => sepsisScore_cons_symptom f s,
    fun f _ _ h => shockScore_anti_bp f h,
    fun f _ _ h => shockScore_mono_hr f h,
    fun f _ _ h => shockScore_anti_spo2 f h,
    fun f _ _ h => shockScore_mono_temp f h,
    fun f _ _ h => shockScore_mono_age f h,
    fun f s => shockScore_cons_symptom f s,
    fun f _ _ h => strokeScore_mono_bp f h,
    fun f _ _ h => strokeScore_mono_age f h,
    fun f _ _ h => strokeScore_mono_hr f h,
    fun f c => strokeScore_cons_cond f c,
    fun f s => strokeScore_cons_symptom f s⟩

/-- Witness for C4: bounds at the default form and heart-rate monotonicity
at the concrete pair 80 and 120. -/
theorem subscores_bounded_and_monotone_witness :
    (0 ≤ sepsisScore defaultForm ∧ sepsisScore defaultForm ≤ 100 ∧
      0 ≤ shockScore defaultForm ∧ shockScore defaultForm ≤ 100 ∧
      0 ≤ strokeScore defaultForm ∧ strokeScore defaultForm ≤ 100) ∧
    sepsisScore { defaultForm with heart_rate := 80 } ≤
      sepsisScore { defaultForm with heart_rate := 120 } :=
  ⟨subscores_bounded_and_monotone.1 defaultForm,
    subscores_bounded_and_monotone.2.1 defaultForm 80 120 (by norm_num)⟩

/-- C1: modelled from the spec, for every vitals input with SpO2 at or below
85 the Critical Override Guard fires with the SpO2 reason, and the
orchestrated verdict is High risk with confidence 1.0 and an empty SHAP
factor list regardless of classifier output; moreover the guard evaluates
its four rules in the fixed declaration order and reports exactly the first
matching rule's reason. -/
theorem overrideGuard_spo2_forces_high :
    (∀ (v : Vitals) (cls : ClassifierOutput), v.spo2 ≤ 85 →
      (criticalOverrideGuard v).fired = true ∧
      (criticalOverrideGuard v).reason = some "SpO2 <= 85%" ∧
      (orchestrateRisk v cls).risk_level = RiskLevel.High ∧
      (orchestrateRisk v cls).confidence = 1 ∧
      (orchestrateRisk v cls).shap_factors = [] ∧
      (orchestrateRisk v cls).override = true ∧
      (orchestrateRisk v cls).override_reason = some "SpO2 <= 85%") ∧
    (∀ (v : Vitals) (i : ℕ) (hi : i < overrideRules.length),
      (overrideRules.get ⟨i, hi⟩).1 v = true →
      (∀ j (hj : j < i), (overrideRules.get ⟨j, hj.trans hi⟩).1 v = false) →
      criticalOverrideGuard v = ⟨true, some (overrideRules.get ⟨i, hi⟩).2⟩) := by
  constructor
  · intro v cls h
    have hg : criticalOverrideGuard v = ⟨true, some "SpO2 <= 85%"⟩ := by
      unfold criticalOverrideGuard overrideRules
      simp only [firstMatch]
      rw [if_pos (by simpa using h)]
    have ho : orchestrateRisk v cls =
        ⟨RiskLevel.High, 1, [], true, some "SpO2 <= 85%"⟩ := by
      simp [orchestrateRisk, hg]
    exact ⟨by rw [hg], by rw [hg], by rw [ho], by rw [ho], by rw [ho], by rw [ho],
      by rw [ho]⟩
  · intro v i hi hmatch hprev
    exact firstMatch_eq_of_first overrideRules v i hi hmatch hprev

/-- Witness for C1 at SpO2 = 84 with a contrary Low-risk classifier output. -/
theorem overrideGuard_spo2_forces_high_witness :
    (criticalOverrideGuard ⟨120, 80, 75, 37, 84⟩).fired = true ∧
    (criticalOverrideGuard ⟨120, 80, 75, 37, 84⟩).reason = some "SpO2 <= 85%" ∧
    (orchestrateRisk ⟨120, 80, 75, 37, 84⟩ ⟨RiskLevel.Low, 0.9, []⟩).risk_level =
      RiskLevel.High ∧
    (orchestrateRisk ⟨120, 80, 75, 37, 84⟩ ⟨RiskLevel.Low, 0.9, []⟩).confidence = 1 ∧
    (orchestrateRisk ⟨120, 80, 75, 37, 84⟩ ⟨RiskLevel.Low, 0.9, []⟩).shap_factors = [] ∧
    (orchestrateRisk ⟨120, 80, 75, 37, 84⟩ ⟨RiskLevel.Low, 0.9, []⟩).override = true ∧
    (orchestrateRisk ⟨120, 80, 75, 37, 84⟩ ⟨RiskLevel.Low, 0.9, []⟩).override_reason =
      some "SpO2 <= 85%" :=
  overrideGuard_spo2_forces_high.1 ⟨120, 80, 75, 37, 84⟩ ⟨RiskLevel.Low, 0.9, []⟩
    (by norm_num)

/-- C5: modelled from the spec, every digital twin projection has a timeline
strictly increasing in time_minutes, its step at minute 0 carries exactly the
input vitals, and the escalation point, when present, equals the
time_minutes of the first timeline step whose risk level is strictly higher
than the starting risk (no earlier step qualifying); it is absent exactly
when risk never increases over the projection. -/
theorem digitalTwin_timeline_properties (drift : Vitals → Vitals)
    (riskScore : Vitals → ℚ) (classify : Vitals → RiskLevel) (v0 : Vitals)
    (startRisk : RiskLevel) (m : ℕ) :
    List.Chain' (fun s t : TimelineStep => s.time_minutes < t.time_minutes)
      (simulateTwin drift riskScore classify v0) ∧
    (simulateTwin drift riskScore classify v0).head? =
      some ⟨0, v0, riskScore v0, classify v0⟩ ∧
    (escalationPointMin startRisk (simulateTwin drift riskScore classify v0) = some m ↔
      ∃ i, ∃ hi : i < (simulateTwin drift riskScore classify v0).length,
        startRisk.rank <
          ((simulateTwin drift riskScore classify v0).get ⟨i, hi⟩).risk_level.rank ∧
        ((simulateTwin drift riskScore classify v0).get ⟨i, hi⟩).time_minutes = m ∧
        ∀ j (hj : j < i),
          ((simulateTwin drift riskScore classify v0).get
            ⟨j, hj.trans hi⟩).risk_level.rank ≤ startRisk.rank) ∧
    (escalationPointMin startRisk (simulateTwin drift riskScore classify v0) = none ↔
      ∀ s ∈ simulateTwin drift riskScore classify v0,
        s.risk_level.rank ≤ startRisk.rank) := by
  refine ⟨?_, rfl, escalationPointMin_eq_some_iff _ _ _, escalationPointMin_eq_none_iff _ _⟩
  unfold simulateTwin
  rw [List.chain'_map, List.chain'_iff_get]
  intro i hlen
  simp only [List.get_eq_getElem, List.getElem_range]
  omega

/-- Witness for C5 with the identity drift, constant scoring, and the default
vitals: the minute-0 step carries exactly the input vitals. -/
theorem digitalTwin_timeline_witness :
    (simulateTwin id (fun _ => 0) (fun _ => RiskLevel.High) ⟨120, 80, 75, 37, 97⟩).head? =
      some ⟨0, ⟨120, 80, 75, 37, 97⟩, 0, RiskLevel.High⟩ :=
  (digitalTwin_timeline_properties id (fun _ => 0) (fun _ => RiskLevel.High)
    ⟨120, 80, 75, 37, 97⟩ RiskLevel.Low 0).2.1

end Vigil
